import Mathlib

/-!
Shallow embedding of the OpenLineage dbt adapter core
(`integrations/dbt/dbt/adapters/openlineage/connections.py`):
the run registry, the START/COMPLETE/FAIL event emission, the
failure-identity recovery from raw query text, and the exception
classification boundary.

Python strings are modelled as `String` (with character-list helpers),
the `self._meta` dict as an association list where the most recent
insertion shadows earlier ones (Python dict assignment overwrites),
an absent `_meta` attribute as `none`, and side effects (log lines,
event emissions, raises, normal return) as an explicit trace of steps
in execution order.  External collaborators (uuid4, SqlParser.parse,
datetime.now) are passed in as parameters, per the spec's black-box
treatment of them.
-/

namespace OLDbt

/-- One entry of a google client error's `errors` list; only its
`message` field is read by `handle_error`. -/
structure ErrItem where
  message : String
deriving DecidableEq, Repr

/-- The google client exception payload: `error.errors` as read by
`handle_error`. -/
structure GoogleError where
  errors : List ErrItem
deriving DecidableEq, Repr

/-- Exceptions that can cross the `exception_handler` boundary, in either
direction.  `badRequest` / `forbidden` model `google.cloud.exceptions`
classes, `refreshError` models `google.auth.exceptions.RefreshError`,
`runtimeException` / `databaseException` model the dbt exception classes
(in dbt, `DatabaseException` subclasses `RuntimeException`),
`attributeError` / `keyError` are Python builtins raised by the buggy
lookup paths, and `other` is any other `Exception` subclass.  The carried
string is `str(e)`. -/
inductive PyExc where
  | badRequest (g : GoogleError)
  | forbidden (g : GoogleError)
  | refreshError (msg : String)
  | runtimeException (msg : String)
  | databaseException (msg : String)
  | attributeError (msg : String)
  | keyError (key : String)
  | other (msg : String)
deriving DecidableEq, Repr

/-- `isinstance(e, RuntimeException)` for the dbt hierarchy:
`DatabaseException` is a subclass of `RuntimeException`. -/
def isRuntimeExceptionInst : PyExc → Bool
  | .runtimeException _ => true
  | .databaseException _ => true
  | _ => false

/-- `str(e)` as used in the catch-all branch.  The google classes never
reach that branch (they are caught earlier), so their rendering is
irrelevant and abstracted to the empty string; `keyError` quoting is
abstracted to the bare key. -/
def strExc : PyExc → String
  | .badRequest _ => ""
  | .forbidden _ => ""
  | .refreshError msg => msg
  | .runtimeException msg => msg
  | .databaseException msg => msg
  | .attributeError msg => msg
  | .keyError k => k
  | .other msg => msg

/-- `RunMeta` from connections.py: runtime information about a model set
up on the start event and shared with complete/fail events. -/
structure RunMeta where
  run_id : String
  namespace_ : String
  name : String
deriving DecidableEq, Repr

/-- `BQ_QUERY_JOB_SPLIT` from connections.py. -/
def BQ_QUERY_JOB_SPLIT : String := "-----Query Job SQL Follows-----"

/-- Modelled from the spec: the integration's version string
(`dbt/adapters/openlineage/version.py` is not part of the sources);
the spec only requires a producer string identifying integration and
version. -/
def VERSION : String := "0.14.2"

/-- `PRODUCER` from connections.py. -/
def PRODUCER : String := "dbt-openlineage/" ++ VERSION

/-- The three run states used by the adapter. -/
inductive EventType where
  | start
  | complete
  | fail
deriving DecidableEq, Repr

/-- A `RunEvent` as constructed by the adapter: event type, event time,
run id, job namespace/name, the two START-only job facets, producer, and
input/output datasets as (namespace, name) pairs. -/
structure Event where
  eventType : EventType
  eventTime : String
  runId : String
  jobNamespace : String
  jobName : String
  sourceCodeLocation : Option String
  sqlFacet : Option String
  producer : String
  inputs : List (String × String)
  outputs : List (String × String)
deriving DecidableEq, Repr

/-- One observable step of an adapter call, in execution order. -/
inductive Step where
  | emit (ev : Event)
  | logError (s : String)
  | logInfo (s : String)
  | logDebug (s : String)
  | raiseExc (e : PyExc)
  | ret
deriving DecidableEq, Repr

/-- Whether `emit_failed` returned normally or raised. -/
inductive FOutcome where
  | ok
  | raised (e : PyExc)
deriving DecidableEq, Repr

/-- The connection manager's mutable state: `self._meta`.  `none` models
the `_meta` attribute not existing yet (before any `emit_start`); the
association list models the dict, latest insertion first (lookup takes
the first hit, so insertion shadows, like Python dict assignment). -/
structure Manager where
  meta : Option (List (String × RunMeta))
deriving DecidableEq, Repr

/-- The dbt model dict fields read by `emit_start`. -/
structure Model where
  fqn : List String
  unique_id : String
  compiled_sql : String
  relation_name : String
  original_file_path : String
deriving DecidableEq, Repr

/-! ### String helpers (Python `re.search`, `str.split`, `str.strip`) -/

/-- Boolean list-prefix test (self-contained so that concrete
evaluation reduces by `rfl`/`decide`). -/
def isPre : List Char → List Char → Bool
  | [], _ => true
  | _ :: _, [] => false
  | a :: as, b :: bs => a == b && isPre as bs

/-- Does `pat` occur as a contiguous substring of `s`? -/
def containsSub (pat : List Char) : List Char → Bool
  | [] => isPre pat []
  | c :: rest => isPre pat (c :: rest) || containsSub pat rest

/-- The part of `s` preceding the first occurrence of `pat`; all of `s`
when `pat` does not occur (Python `s.split(pat)[0]`). -/
def beforeFirst (pat : List Char) : List Char → List Char
  | [] => []
  | c :: rest =>
    if isPre pat (c :: rest) then [] else c :: beforeFirst pat rest

/-- Python whitespace for `str.strip()`. -/
def isPySpace (c : Char) : Bool :=
  c == ' ' || c == '\t' || c == '\n' || c == '\r' || c == '\x0b' || c == '\x0c'

/-- Python `str.strip()`. -/
def stripChars (l : List Char) : List Char :=
  ((l.dropWhile isPySpace).reverse.dropWhile isPySpace).reverse

/-- String-level `s.split(pat)[0].strip()` building blocks. -/
def containsSubStr (s pat : String) : Bool := containsSub pat.data s.data

/-- String-level text before the first occurrence of `pat`. -/
def beforeFirstStr (s pat : String) : String := ⟨beforeFirst pat.data s.data⟩

/-- String-level Python `strip()`. -/
def stripStr (s : String) : String := ⟨stripChars s.data⟩

/-- The literal part of the `emit_failed` regex `"node_id": "(.*)"`. -/
def nodeIdMarker : List Char := "\"node_id\": \"".data

/-- Everything on the current line (`.` in a Python regex without
DOTALL does not match a newline). -/
def lineOf (cs : List Char) : List Char := cs.takeWhile (fun c => c != '\n')

/-- The part of `line` strictly before its last double-quote, or `none`
when it has no double-quote: the greedy `(.*)"` capture. -/
def beforeLastQuote (line : List Char) : Option (List Char) :=
  match line.reverse.dropWhile (fun c => c != '"') with
  | [] => none
  | _ :: rest => some rest.reverse

/-- Python `re.search(r'"node_id": "(.*)"', s)`: try start positions
left to right; at the first position where the literal marker matches
and a closing double-quote exists later on the same line, capture
greedily up to the last double-quote of that line. -/
def searchNodeId : List Char → Option (List Char)
  | [] => none
  | c :: rest =>
    if isPre nodeIdMarker (c :: rest) then
      match beforeLastQuote (lineOf ((c :: rest).drop nodeIdMarker.length)) with
      | some grp => some grp
      | none => searchNodeId rest
    else searchNodeId rest

/-- String-level wrapper for `searchNodeId`. -/
def searchNodeIdStr (s : String) : Option String :=
  (searchNodeId s.data).map (fun l => ⟨l⟩)

/-- Python `s.replace(chr(96), "")`: drop all backticks. -/
def removeBackticks (s : String) : String :=
  ⟨s.data.filter (fun c => c.toNat != 96)⟩

/-! ### The adapter operations -/

/-- `OpenLineageConnectionManager.handle_error` (connections.py:54-57):
joins the `message` fields of `error.errors` with newlines and raises a
`DatabaseException` with that text.  The raise is modelled by returning
the raised exception value; the `message` parameter is unused, exactly
as in the source. -/
def handle_error (error : GoogleError) (message : String) : PyExc :=
  .databaseException (String.intercalate "\n" (error.errors.map ErrItem.message))

/-- The FAIL `RunEvent` constructed by `emit_failed`. -/
def failEvent (meta : RunMeta) (now : String) : Event :=
  { eventType := .fail, eventTime := now, runId := meta.run_id,
    jobNamespace := meta.namespace_, jobName := meta.name,
    sourceCodeLocation := none, sqlFacet := none,
    producer := PRODUCER, inputs := [], outputs := [] }

/-- The COMPLETE `RunEvent` constructed by `emit_complete`; the run id
field is the `run_id` argument, the job fields come from the resolved
`RunMeta`. -/
def completeEvent (run_id : String) (meta : RunMeta) (now : String) : Event :=
  { eventType := .complete, eventTime := now, runId := run_id,
    jobNamespace := meta.namespace_, jobName := meta.name,
    sourceCodeLocation := none, sqlFacet := none,
    producer := PRODUCER, inputs := [], outputs := [] }

/-- The START `RunEvent` constructed by `emit_start`. -/
def startEvent (run_id : String) (meta : RunMeta) (run_started_at : String)
    (model : Model) (inputs : List String) : Event :=
  { eventType := .start, eventTime := run_started_at, runId := run_id,
    jobNamespace := meta.namespace_, jobName := meta.name,
    sourceCodeLocation := some model.original_file_path,
    sqlFacet := some model.compiled_sql,
    producer := PRODUCER,
    inputs := inputs.map (fun relation => (meta.namespace_, relation)),
    outputs := [(meta.namespace_, removeBackticks model.relation_name)] }

/-- `OpenLineageConnectionManager.emit_failed` (connections.py:140-155).
`res = re.search(r.node_id.., sql)`; when no match is found the failure
is logged but the code still evaluates `self._meta[res.group(1)]`, so
`self._meta` is read first (AttributeError when the attribute does not
exist) and then `res.group(1)` raises AttributeError on `None`; with a
match, a missing key raises KeyError.  On success: an info log, the FAIL
event emission, a debug log.  The manager state is never modified. -/
def emit_failed (m : Manager) (sql : String) (now : String) :
    List Step × FOutcome :=
  match searchNodeIdStr sql with
  | none =>
    ([.logError "can\x27t emit OpenLineage event when run failed: can\x27t find run id"],
     match m.meta with
     | none => .raised (.attributeError "OpenLineageConnectionManager object has no attribute _meta")
     | some _ => .raised (.attributeError "NoneType object has no attribute group"))
  | some tok =>
    match m.meta with
    | none =>
      ([], .raised (.attributeError "OpenLineageConnectionManager object has no attribute _meta"))
    | some d =>
      match d.lookup tok with
      | none => ([], .raised (.keyError tok))
      | some meta =>
        ([.logInfo ("run id failed " ++ meta.run_id),
          .emit (failEvent meta now),
          .logDebug ("openlineage failed event with run_id: " ++ meta.run_id)],
         .ok)

/-- `OpenLineageConnectionManager.emit_complete` (connections.py:127-138):
`meta = self._meta[run_id]` (AttributeError when `_meta` does not exist,
KeyError when the key was never stored), then the COMPLETE event and a
debug log.  The registry is never modified. -/
def emit_complete (m : Manager) (run_id : String) (now : String) :
    List Step × Manager :=
  match m.meta with
  | none =>
    ([.raiseExc (.attributeError "OpenLineageConnectionManager object has no attribute _meta")], m)
  | some d =>
    match d.lookup run_id with
    | none => ([.raiseExc (.keyError run_id)], m)
    | some meta =>
      ([.emit (completeEvent run_id meta now),
        .logDebug ("openlineage complete event with run_id: " ++ run_id),
        .ret], m)

/-- Result of one `emit_start` call: its observable trace, the manager
state after it, and the value returned to the caller (`none` when the
call raised instead of returning). -/
structure StartResult where
  trace : List Step
  state : Manager
  ret : Option String
deriving DecidableEq, Repr

/-- `OpenLineageConnectionManager.emit_start` (connections.py:71-125).
`run_id` stands for the fresh `str(uuid.uuid4())` and `parseResult` for
the outcome of the black-box `SqlParser.parse` on
`model['compiled_sql']` (`.ok` carries the qualified names of
`sql_meta.in_tables`; `.error` carries the exception text): a parse
failure is logged and swallowed, leaving `inputs = []`.  `self._meta` is
initialised if absent, then the `RunMeta` is stored under
`model['unique_id']` and under `run_id` (list-prepend = dict overwrite),
the START event is emitted and `run_id` returned.  An empty
`model['fqn']` makes `model['fqn'][0]` raise IndexError (modelled as
`attributeError`-style builtin raise step) after the registry was only
initialised.  The info-log payload abstracts the `json.dumps` dump of
the model to the run id. -/
def emit_start (m : Manager) (model : Model) (run_started_at : String)
    (run_id : String) (parseResult : Except String (List String)) :
    StartResult :=
  let inputs := match parseResult with
    | .ok l => l
    | .error _ => []
  let parseSteps : List Step := match parseResult with
    | .ok _ => []
    | .error e => [.logError ("Cannot parse biquery sql. " ++ e)]
  let infoStep : Step := .logInfo ("emit_start: " ++ run_id)
  let d0 := match m.meta with
    | none => []
    | some d => d
  match model.fqn with
  | [] =>
    { trace := parseSteps ++ [infoStep, .raiseExc (.other "IndexError: list index out of range")],
      state := ⟨some d0⟩, ret := none }
  | ns :: _ =>
    let meta : RunMeta := ⟨run_id, ns, model.unique_id⟩
    let d1 := (run_id, meta) :: (model.unique_id, meta) :: d0
    { trace := parseSteps ++ [infoStep, .emit (startEvent run_id meta run_started_at model inputs), .ret],
      state := ⟨some d1⟩,
      ret := some run_id }

/-- The guidance message of the `RefreshError` branch
(connections.py:174-179). -/
def refreshErrorMessage (e : String) : String :=
  "Unable to generate access token, if you\x27re using " ++
  "impersonate_service_account, make sure your " ++
  "initial account has the \"roles/" ++
  "iam.serviceAccountTokenCreator\" role on the " ++
  "account you are trying to impersonate.\n\n" ++ e

/-- The catch-all branch's message truncation (connections.py:191-195):
`str(e)`, cut at the first `BQ_QUERY_JOB_SPLIT` and stripped when the
delimiter occurs. -/
def truncateMessage (msg : String) : String :=
  if containsSubStr msg BQ_QUERY_JOB_SPLIT then
    stripStr (beforeFirstStr msg BQ_QUERY_JOB_SPLIT)
  else msg

/-- `OpenLineageConnectionManager.exception_handler` (connections.py:
157-196), applied to the exception `e` raised by the wrapped body (the
success path emits nothing and is not represented).  Every branch first
runs `emit_failed`; an exception raised there escapes the `except`
clause and replaces the classified error (the trace ends with that
raise).  Otherwise: BadRequest/Forbidden go to `handle_error`;
RefreshError raises a `RuntimeException` with guidance text; the
catch-all logs twice, re-raises `RuntimeException` instances unchanged
and wraps everything else in a `RuntimeException` with the truncated
message. -/
def exception_handler (m : Manager) (sql : String) (now : String) (e : PyExc) :
    List Step :=
  match e with
  | .badRequest g =>
    match emit_failed m sql now with
    | (steps, .raised ex) => steps ++ [.raiseExc ex]
    | (steps, .ok) =>
      steps ++ [.raiseExc (handle_error g "Bad request while running query")]
  | .forbidden g =>
    match emit_failed m sql now with
    | (steps, .raised ex) => steps ++ [.raiseExc ex]
    | (steps, .ok) =>
      steps ++ [.raiseExc (handle_error g "Access denied while running query")]
  | .refreshError msg =>
    match emit_failed m sql now with
    | (steps, .raised ex) => steps ++ [.raiseExc ex]
    | (steps, .ok) =>
      steps ++ [.raiseExc (.runtimeException (refreshErrorMessage msg))]
  | e =>
    match emit_failed m sql now with
    | (steps, .raised ex) => steps ++ [.raiseExc ex]
    | (steps, .ok) =>
      let logged := steps ++
        [.logDebug ("Unhandled error while running:\n" ++ sql),
         .logDebug (strExc e)]
      if isRuntimeExceptionInst e then logged ++ [.raiseExc e]
      else logged ++ [.raiseExc (.runtimeException (truncateMessage (strExc e)))]

/-! ### Step classification helpers -/

/-- Is the step an event emission? -/
def isEmit : Step → Bool
  | .emit _ => true
  | _ => false

/-- Is the step the emission of a FAIL event? -/
def isFailEmit : Step → Bool
  | .emit ev => match ev.eventType with
    | .fail => true
    | _ => false
  | _ => false

/-- Is the step the emission of a COMPLETE event? -/
def isCompleteEmit : Step → Bool
  | .emit ev => match ev.eventType with
    | .complete => true
    | _ => false
  | _ => false

/-- Is the step the emission of a START event? -/
def isStartEmit : Step → Bool
  | .emit ev => match ev.eventType with
    | .start => true
    | _ => false
  | _ => false

/-- Is the step a raise? -/
def isRaiseStep : Step → Bool
  | .raiseExc _ => true
  | _ => false

/-- Is the step an error-level log line? -/
def isLogErrorStep : Step → Bool
  | .logError _ => true
  | _ => false

/-- Is the step the raise of a `DatabaseException`? -/
def isDatabaseRaise : Step → Bool
  | .raiseExc e => match e with
    | .databaseException _ => true
    | _ => false
  | _ => false

/-- Is the exception one of the two lookup failures the buggy
`emit_failed` paths can raise? -/
def isLookupErr : PyExc → Bool
  | .attributeError _ => true
  | .keyError _ => true
  | _ => false

/-- Is the exception handled by the final `except Exception` clause (not
by one of the three specific clauses before it)? -/
def caughtByCatchAll : PyExc → Bool
  | .badRequest _ => false
  | .forbidden _ => false
  | .refreshError _ => false
  | _ => true

/-! ### Concrete fixtures for witnesses and counterexamples -/

/-- A registered run. -/
def rm1 : RunMeta := ⟨"rid-1", "proj", "model.proj.m1"⟩

/-- Manager state after one `emit_start` for `model.proj.m1`. -/
def mgr1 : Manager := ⟨some [("rid-1", rm1), ("model.proj.m1", rm1)]⟩

/-- Query text embedding a token that resolves in `mgr1`. -/
def sqlGood : String := "-- \"node_id\": \"model.proj.m1\"\nselect 1"

/-- Query text with no `node_id` marker. -/
def sqlNoMarker : String := "select 1"

/-- Query text whose embedded token does not resolve in `mgr1`. -/
def sqlUnresolved : String := "-- \"node_id\": \"model.proj.zzz\"\nselect 1"

/-- Query text embedding a valid token followed by a second
double-quoted string on the same line. -/
def sqlWrongKey : String :=
  "-- \"node_id\": \"model.proj.m1\", \"foo\": \"bar\"\nselect 1"

/-- A google error payload with two server-side messages. -/
def gErr : GoogleError := ⟨[⟨"bad thing one"⟩, ⟨"bad thing two"⟩]⟩

/-- A model dict as `emit_start` reads it. -/
def model0 : Model :=
  { fqn := ["proj", "m1"], unique_id := "model.proj.m1",
    compiled_sql := "select 1", relation_name := "proj.ds.m1",
    original_file_path := "models/m1.sql" }

/-- An exception message with text on both sides of the verbose
delimiter. -/
def badMsgC6 : String := "boom " ++ BQ_QUERY_JOB_SPLIT ++ " secret tail"

/-! ### Helper lemmas about `emit_failed` -/

/-- The step list `emit_failed` produces never contains a raise step
(its failures are modelled in the outcome component). -/
theorem emit_failed_no_raise_mem (m : Manager) (sql now : String) (ex : PyExc) :
    Step.raiseExc ex ∉ (emit_failed m sql now).1 := by
  cases hs : searchNodeIdStr sql with
  | none => cases hm : m.meta <;> simp [emit_failed, hs, hm]
  | some tok =>
    cases hm : m.meta with
    | none => simp [emit_failed, hs, hm]
    | some d =>
      cases hd : d.lookup tok <;> simp [emit_failed, hs, hm, hd]

/-- The step list `emit_failed` produces never contains a normal-return
step. -/
theorem emit_failed_no_ret_mem (m : Manager) (sql now : String) :
    Step.ret ∉ (emit_failed m sql now).1 := by
  cases hs : searchNodeIdStr sql with
  | none => cases hm : m.meta <;> simp [emit_failed, hs, hm]
  | some tok =>
    cases hm : m.meta with
    | none => simp [emit_failed, hs, hm]
    | some d =>
      cases hd : d.lookup tok <;> simp [emit_failed, hs, hm, hd]

/-- When `emit_failed` raises, the raised exception is one of the two
lookup errors (AttributeError / KeyError), never a dbt exception. -/
theorem emit_failed_raised_lookupErr (m : Manager) (sql now : String) (ex : PyExc)
    (h : (emit_failed m sql now).2 = .raised ex) : isLookupErr ex = true := by
  cases hs : searchNodeIdStr sql with
  | none =>
    cases hm : m.meta <;>
      simp [emit_failed, hs, hm] at h <;> simp [← h, isLookupErr]
  | some tok =>
    cases hm : m.meta with
    | none =>
      simp [emit_failed, hs, hm] at h
      simp [← h, isLookupErr]
    | some d =>
      cases hd : d.lookup tok with
      | none =>
        simp [emit_failed, hs, hm, hd] at h
        simp [← h, isLookupErr]
      | some meta => simp [emit_failed, hs, hm, hd] at h

/-- `emit_failed` on a query whose embedded token resolves: the info
log, exactly the one FAIL event, the debug log, and a normal return. -/
theorem emit_failed_resolved (m : Manager) (sql now tok : String)
    (d : List (String × RunMeta)) (rm : RunMeta)
    (hs : searchNodeIdStr sql = some tok) (hm : m.meta = some d)
    (hd : d.lookup tok = some rm) :
    emit_failed m sql now =
      ([.logInfo ("run id failed " ++ rm.run_id),
        .emit (failEvent rm now),
        .logDebug ("openlineage failed event with run_id: " ++ rm.run_id)],
       .ok) := by
  simp [emit_failed, hs, hm, hd]

/-! ### Claim theorems -/

/-- C9: `handle_error` ignores its `message` parameter entirely: for any
error payload the raised `DatabaseException` is identical for any two
message strings, and its text is exactly the newline-join of the
`message` fields of `error.errors` — so the human-readable messages
built in `exception_handler` never reach the caller through this path. -/
theorem handle_error_ignores_message (g : GoogleError) (m1 m2 : String) :
    handle_error g m1 = handle_error g m2 ∧
    handle_error g m1 =
      .databaseException (String.intercalate "\n" (g.errors.map ErrItem.message)) :=
  ⟨rfl, rfl⟩

/-- C3: `emit_start` on a model with a nonempty `fqn` stores one
`RunMeta {run_id, namespace = fqn[0], name = unique_id}` record under
both the model's `unique_id` key and the fresh `run_id` key (the
`run_id` argument stands for the freshly generated `str(uuid.uuid4())`),
both lookups resolve to that same record, and the run id is returned to
the caller. -/
theorem emit_start_registers_both_keys (m : Manager) (model : Model)
    (run_started_at run_id : String) (pr : Except String (List String))
    (ns : String) (rest : List String) (hfqn : model.fqn = ns :: rest) :
    (emit_start m model run_started_at run_id pr).ret = some run_id ∧
    ∃ d, (emit_start m model run_started_at run_id pr).state.meta = some d ∧
      d.lookup model.unique_id = some ⟨run_id, ns, model.unique_id⟩ ∧
      d.lookup run_id = some ⟨run_id, ns, model.unique_id⟩ := by
  have hmeta : (emit_start m model run_started_at run_id pr).state.meta =
      some ((run_id, ⟨run_id, ns, model.unique_id⟩) ::
            (model.unique_id, ⟨run_id, ns, model.unique_id⟩) ::
            (match m.meta with | none => [] | some d => d)) := by
    simp [emit_start, hfqn]
  refine ⟨by simp [emit_start, hfqn], _, hmeta, ?_, ?_⟩
  · cases h2 : model.unique_id == run_id <;> simp [List.lookup, h2]
  · simp [List.lookup, beq_iff_eq]

/-- Witness for C3 at a concrete model and fresh run id. -/
theorem emit_start_registers_both_keys_witness :
    (emit_start ⟨none⟩ model0 "t0" "rid-1" (Except.ok [])).ret = some "rid-1" ∧
    ∃ d, (emit_start ⟨none⟩ model0 "t0" "rid-1" (Except.ok [])).state.meta = some d ∧
      d.lookup model0.unique_id = some ⟨"rid-1", "proj", model0.unique_id⟩ ∧
      d.lookup "rid-1" = some ⟨"rid-1", "proj", model0.unique_id⟩ :=
  emit_start_registers_both_keys ⟨none⟩ model0 "t0" "rid-1" (Except.ok [])
    "proj" ["m1"] rfl

/-- C7: when the black-box SQL parse fails, `emit_start` swallows the
failure: the parse error is logged, no exception is propagated (the
trace contains no raise and ends in a normal return), the START event is
still emitted with an empty input list, and the run id is still
returned. -/
theorem emit_start_parse_failure_swallowed (m : Manager) (model : Model)
    (run_started_at run_id emsg : String)
    (ns : String) (rest : List String) (hfqn : model.fqn = ns :: rest) :
    (emit_start m model run_started_at run_id (Except.error emsg)).trace =
      [.logError ("Cannot parse biquery sql. " ++ emsg),
       .logInfo ("emit_start: " ++ run_id),
       .emit (startEvent run_id ⟨run_id, ns, model.unique_id⟩ run_started_at model []),
       .ret] ∧
    (startEvent run_id ⟨run_id, ns, model.unique_id⟩ run_started_at model []).eventType
      = .start ∧
    (startEvent run_id ⟨run_id, ns, model.unique_id⟩ run_started_at model []).inputs
      = [] ∧
    ((emit_start m model run_started_at run_id (Except.error emsg)).trace.filter
        isRaiseStep) = [] ∧
    (emit_start m model run_started_at run_id (Except.error emsg)).ret = some run_id := by
  refine ⟨by simp [emit_start, hfqn], rfl, by simp [startEvent], ?_, by simp [emit_start, hfqn]⟩
  simp [emit_start, hfqn, isRaiseStep]

/-- Witness for C7 at a concrete model and parse failure. -/
theorem emit_start_parse_failure_swallowed_witness :
    (emit_start ⟨none⟩ model0 "t0" "rid-1" (Except.error "parse boom")).trace =
      [.logError ("Cannot parse biquery sql. " ++ "parse boom"),
       .logInfo ("emit_start: " ++ "rid-1"),
       .emit (startEvent "rid-1" ⟨"rid-1", "proj", model0.unique_id⟩ "t0" model0 []),
       .ret] ∧
    (startEvent "rid-1" ⟨"rid-1", "proj", model0.unique_id⟩ "t0" model0 []).eventType
      = .start ∧
    (startEvent "rid-1" ⟨"rid-1", "proj", model0.unique_id⟩ "t0" model0 []).inputs
      = [] ∧
    ((emit_start ⟨none⟩ model0 "t0" "rid-1" (Except.error "parse boom")).trace.filter
        isRaiseStep) = [] ∧
    (emit_start ⟨none⟩ model0 "t0" "rid-1" (Except.error "parse boom")).ret
      = some "rid-1" :=
  emit_start_parse_failure_swallowed ⟨none⟩ model0 "t0" "rid-1" "parse boom"
    "proj" ["m1"] rfl

/-- C1 (code bug): when the query text has no embedded `node_id` marker,
`emit_failed` logs the identity-recovery failure but then still
evaluates `res.group(1)` on `None`, so the resulting AttributeError
escapes the `except` clause and replaces the classified
DatabaseException: the caller never receives the classified error.  When
a marker is present but its token does not resolve, the dict lookup
raises KeyError with no identity-recovery log at all.  In both cases no
FAIL event is emitted, but classification and propagation ARE blocked by
the lineage bookkeeping, contradicting the spec's best-effort rule. -/
theorem emit_failed_crash_blocks_classified_error :
    exception_handler mgr1 sqlNoMarker "t1" (.badRequest gErr) =
      [.logError "can\x27t emit OpenLineage event when run failed: can\x27t find run id",
       .raiseExc (.attributeError "NoneType object has no attribute group")] ∧
    (exception_handler mgr1 sqlNoMarker "t1" (.badRequest gErr)).filter
      isDatabaseRaise = [] ∧
    (exception_handler mgr1 sqlNoMarker "t1" (.badRequest gErr)).filter
      isFailEmit = [] ∧
    exception_handler mgr1 sqlUnresolved "t1" (.badRequest gErr) =
      [.raiseExc (.keyError "model.proj.zzz")] ∧
    (exception_handler mgr1 sqlUnresolved "t1" (.badRequest gErr)).filter
      isLogErrorStep = [] ∧
    (exception_handler mgr1 sqlUnresolved "t1" (.badRequest gErr)).filter
      isFailEmit = [] :=
  ⟨rfl, rfl, rfl, rfl, rfl, rfl⟩

/-- C2: for a failing execution whose query text embeds a token that
resolves in the registry, the boundary emits exactly one FAIL event —
for the run id recovered from the token — and no COMPLETE or START
event, all emissions and logs precede the single final raise of the
classified error (the trace is `pre ++ [raise]` with no raise inside
`pre`), and the boundary never returns normally (no `ret` step). -/
theorem exception_handler_single_fail_before_raise (m : Manager)
    (sql now tok : String) (d : List (String × RunMeta)) (rm : RunMeta) (e : PyExc)
    (hs : searchNodeIdStr sql = some tok) (hm : m.meta = some d)
    (hd : d.lookup tok = some rm) :
    ∃ pre err, exception_handler m sql now e = pre ++ [.raiseExc err] ∧
      pre.filter isFailEmit = [.emit (failEvent rm now)] ∧
      pre.filter isCompleteEmit = [] ∧
      pre.filter isStartEmit = [] ∧
      pre.filter isRaiseStep = [] ∧
      Step.ret ∉ exception_handler m sql now e := by
  have hef := emit_failed_resolved m sql now tok d rm hs hm hd
  cases e with
  | badRequest g =>
    refine ⟨[.logInfo ("run id failed " ++ rm.run_id), .emit (failEvent rm now),
             .logDebug ("openlineage failed event with run_id: " ++ rm.run_id)],
            handle_error g "Bad request while running query",
            by simp [exception_handler, hef], rfl, rfl, rfl, rfl,
            by simp [exception_handler, hef]⟩
  | forbidden g =>
    refine ⟨[.logInfo ("run id failed " ++ rm.run_id), .emit (failEvent rm now),
             .logDebug ("openlineage failed event with run_id: " ++ rm.run_id)],
            handle_error g "Access denied while running query",
            by simp [exception_handler, hef], rfl, rfl, rfl, rfl,
            by simp [exception_handler, hef]⟩
  | refreshError msg =>
    refine ⟨[.logInfo ("run id failed " ++ rm.run_id), .emit (failEvent rm now),
             .logDebug ("openlineage failed event with run_id: " ++ rm.run_id)],
            .runtimeException (refreshErrorMessage msg),
            by simp [exception_handler, hef], rfl, rfl, rfl, rfl,
            by simp [exception_handler, hef]⟩
  | runtimeException msg =>
    refine ⟨[.logInfo ("run id failed " ++ rm.run_id), .emit (failEvent rm now),
             .logDebug ("openlineage failed event with run_id: " ++ rm.run_id),
             .logDebug ("Unhandled error while running:\n" ++ sql),
             .logDebug (strExc (.runtimeException msg))],
            .runtimeException msg,
            by simp [exception_handler, hef, isRuntimeExceptionInst], rfl, rfl, rfl, rfl,
            by simp [exception_handler, hef, isRuntimeExceptionInst]⟩
  | databaseException msg =>
    refine ⟨[.logInfo ("run id failed " ++ rm.run_id), .emit (failEvent rm now),
             .logDebug ("openlineage failed event with run_id: " ++ rm.run_id),
             .logDebug ("Unhandled error while running:\n" ++ sql),
             .logDebug (strExc (.databaseException msg))],
            .databaseException msg,
            by simp [exception_handler, hef, isRuntimeExceptionInst], rfl, rfl, rfl, rfl,
            by simp [exception_handler, hef, isRuntimeExceptionInst]⟩
  | attributeError msg =>
    refine ⟨[.logInfo ("run id failed " ++ rm.run_id), .emit (failEvent rm now),
             .logDebug ("openlineage failed event with run_id: " ++ rm.run_id),
             .logDebug ("Unhandled error while running:\n" ++ sql),
             .logDebug (strExc (.attributeError msg))],
            .runtimeException (truncateMessage (strExc (.attributeError msg))),
            by simp [exception_handler, hef, isRuntimeExceptionInst], rfl, rfl, rfl, rfl,
            by simp [exception_handler, hef, isRuntimeExceptionInst]⟩
  | keyError k =>
    refine ⟨[.logInfo ("run id failed " ++ rm.run_id), .emit (failEvent rm now),
             .logDebug ("openlineage failed event with run_id: " ++ rm.run_id),
             .logDebug ("Unhandled error while running:\n" ++ sql),
             .logDebug (strExc (.keyError k))],
            .runtimeException (truncateMessage (strExc (.keyError k))),
            by simp [exception_handler, hef, isRuntimeExceptionInst], rfl, rfl, rfl, rfl,
            by simp [exception_handler, hef, isRuntimeExceptionInst]⟩
  | other msg =>
    refine ⟨[.logInfo ("run id failed " ++ rm.run_id), .emit (failEvent rm now),
             .logDebug ("openlineage failed event with run_id: " ++ rm.run_id),
             .logDebug ("Unhandled error while running:\n" ++ sql),
             .logDebug (strExc (.other msg))],
            .runtimeException (truncateMessage (strExc (.other msg))),
            by simp [exception_handler, hef, isRuntimeExceptionInst], rfl, rfl, rfl, rfl,
            by simp [exception_handler, hef, isRuntimeExceptionInst]⟩

/-- Witness for C2 at a resolvable query text and a generic exception. -/
theorem exception_handler_single_fail_before_raise_witness :
    ∃ pre err,
      exception_handler mgr1 sqlGood "t1" (.other "boom") = pre ++ [.raiseExc err] ∧
      pre.filter isFailEmit = [.emit (failEvent rm1 "t1")] ∧
      pre.filter isCompleteEmit = [] ∧
      pre.filter isStartEmit = [] ∧
      pre.filter isRaiseStep = [] ∧
      Step.ret ∉ exception_handler mgr1 sqlGood "t1" (.other "boom") :=
  exception_handler_single_fail_before_raise mgr1 sqlGood "t1" "model.proj.m1"
    [("rid-1", rm1), ("model.proj.m1", rm1)] rm1 (.other "boom") rfl rfl rfl

/-- C8: the identity-extraction regex is greedy: on a query line that
embeds a valid token and then another double-quoted string, the captured
token runs to the last double-quote of the line, differs from the
embedded token, and the registry lookup uses that wrong key and fails
with KeyError. -/
theorem node_id_regex_greedy_capture :
    searchNodeIdStr sqlWrongKey = some "model.proj.m1\", \"foo\": \"bar" ∧
    ("model.proj.m1\", \"foo\": \"bar" : String) ≠ "model.proj.m1" ∧
    emit_failed mgr1 sqlWrongKey "t1" =
      ([], .raised (.keyError "model.proj.m1\", \"foo\": \"bar")) :=
  ⟨rfl, by decide, rfl⟩

/-- C10: `emit_complete` on a run id that no prior `emit_start` stored
raises before any event is constructed — AttributeError when no run was
ever begun on the manager (no `_meta` attribute), KeyError otherwise —
so no COMPLETE event is emitted and the registry is unchanged. -/
theorem emit_complete_unknown_run_id (m : Manager) (run_id now : String)
    (h : ∀ d, m.meta = some d → d.lookup run_id = none) :
    (emit_complete m run_id now).2 = m ∧
    (emit_complete m run_id now).1.filter isEmit = [] ∧
    ((m.meta = none ∧ (emit_complete m run_id now).1 =
        [.raiseExc (.attributeError "OpenLineageConnectionManager object has no attribute _meta")]) ∨
      (∃ d, m.meta = some d ∧ (emit_complete m run_id now).1 =
        [.raiseExc (.keyError run_id)])) := by
  cases hm : m.meta with
  | none =>
    refine ⟨?_, ?_, Or.inl ⟨rfl, ?_⟩⟩ <;> simp [emit_complete, hm, isEmit]
  | some d =>
    have hl := h d hm
    refine ⟨?_, ?_, Or.inr ⟨d, rfl, ?_⟩⟩ <;> simp [emit_complete, hm, hl, isEmit]

/-- Witness for C10 on a manager where no run was ever begun. -/
theorem emit_complete_unknown_run_id_witness :
    (emit_complete (Manager.mk none) "rid-x" "t1").2 = Manager.mk none ∧
    (emit_complete (Manager.mk none) "rid-x" "t1").1.filter isEmit = [] ∧
    (((Manager.mk none).meta = none ∧ (emit_complete (Manager.mk none) "rid-x" "t1").1 =
        [.raiseExc (.attributeError "OpenLineageConnectionManager object has no attribute _meta")]) ∨
      (∃ d, (Manager.mk none).meta = some d ∧
        (emit_complete (Manager.mk none) "rid-x" "t1").1 =
        [.raiseExc (.keyError "rid-x")])) :=
  emit_complete_unknown_run_id (Manager.mk none) "rid-x" "t1"
    (fun _ hd => Option.noConfusion hd)

/-- C4 counterexample: a Forbidden exception caught by the boundary with
a marker-less query text does not deliver any DatabaseException — the
AttributeError from the failed identity recovery replaces it — so the
claim quantified over every bad-request/forbidden exception fails. -/
theorem domain_error_not_delivered_without_marker :
    exception_handler mgr1 sqlNoMarker "t1" (.forbidden gErr) =
      [.logError "can\x27t emit OpenLineage event when run failed: can\x27t find run id",
       .raiseExc (.attributeError "NoneType object has no attribute group")] ∧
    (exception_handler mgr1 sqlNoMarker "t1" (.forbidden gErr)).filter
      isDatabaseRaise = [] :=
  ⟨rfl, rfl⟩

/-- C4 amended: whenever the boundary delivers a DatabaseException for a
caught bad-request or forbidden exception, its message is exactly the
newline-concatenation of the `message` fields of the exception's
server-side `errors` list (when identity recovery fails, a lookup error
is delivered instead and no DatabaseException is raised). -/
theorem exception_handler_domain_error_message (m : Manager) (sql now : String)
    (g : GoogleError) (e : PyExc) (he : e = .badRequest g ∨ e = .forbidden g)
    (s : String)
    (h : Step.raiseExc (.databaseException s) ∈ exception_handler m sql now e) :
    s = String.intercalate "\n" (g.errors.map ErrItem.message) := by
  rcases he with rfl | rfl <;>
  · rcases hef : emit_failed m sql now with ⟨steps, out⟩
    have hnr := emit_failed_no_raise_mem m sql now (PyExc.databaseException s)
    rw [hef] at hnr
    cases out with
    | raised ex =>
      have hle := emit_failed_raised_lookupErr m sql now ex (by rw [hef])
      simp only [exception_handler, hef, List.mem_append, List.mem_singleton] at h
      rcases h with hin | heq
      · exact absurd hin hnr
      · rw [Step.raiseExc.injEq] at heq
        rw [← heq] at hle
        simp [isLookupErr] at hle
    | ok =>
      simp only [exception_handler, hef, List.mem_append, List.mem_singleton] at h
      rcases h with hin | heq
      · exact absurd hin hnr
      · rw [Step.raiseExc.injEq, handle_error, PyExc.databaseException.injEq] at heq
        exact heq

/-- Witness for the amended C4 at a resolvable query text and a
BadRequest carrying two server-side messages. -/
theorem exception_handler_domain_error_message_witness :
    ("bad thing one\nbad thing two" : String) =
      String.intercalate "\n" (gErr.errors.map ErrItem.message) :=
  exception_handler_domain_error_message mgr1 sqlGood "t1" gErr
    (.badRequest gErr) (Or.inl rfl) "bad thing one\nbad thing two" (by decide)

/-- C5 counterexample: a RuntimeException caught by the generic branch
with a marker-less query text is not re-raised at all — the
AttributeError from the failed identity recovery replaces it — so the
claim quantified over every RuntimeException caught there fails. -/
theorem runtime_reraise_blocked_without_marker :
    exception_handler mgr1 sqlNoMarker "t1" (.runtimeException "inner boom") =
      [.logError "can\x27t emit OpenLineage event when run failed: can\x27t find run id",
       .raiseExc (.attributeError "NoneType object has no attribute group")] ∧
    Step.raiseExc (.runtimeException "inner boom") ∉
      exception_handler mgr1 sqlNoMarker "t1" (.runtimeException "inner boom") :=
  ⟨rfl, by decide⟩

/-- C5 amended: whenever the generic branch delivers a RuntimeException
to the caller for a caught RuntimeException, it is the caught exception
itself, with the identical message, not a wrapper (when identity
recovery fails, a lookup error is delivered instead). -/
theorem exception_handler_reraises_runtimeException (m : Manager)
    (sql now msg s : String)
    (h : Step.raiseExc (.runtimeException s) ∈
          exception_handler m sql now (.runtimeException msg)) :
    s = msg := by
  rcases hef : emit_failed m sql now with ⟨steps, out⟩
  have hnr := emit_failed_no_raise_mem m sql now (PyExc.runtimeException s)
  rw [hef] at hnr
  cases out with
  | raised ex =>
    have hle := emit_failed_raised_lookupErr m sql now ex (by rw [hef])
    simp only [exception_handler, hef, isRuntimeExceptionInst, List.mem_append,
      List.mem_singleton] at h
    rcases h with hin | heq
    · exact absurd hin hnr
    · rw [Step.raiseExc.injEq] at heq
      rw [← heq] at hle
      simp [isLookupErr] at hle
  | ok =>
    simp [exception_handler, hef, isRuntimeExceptionInst, strExc] at h
    rcases h with hin | heq
    · exact absurd hin hnr
    · exact heq

/-- Witness for the amended C5 at a resolvable query text. -/
theorem exception_handler_reraises_runtimeException_witness :
    ("inner boom" : String) = "inner boom" :=
  exception_handler_reraises_runtimeException mgr1 sqlGood "t1" "inner boom"
    "inner boom" (by decide)

/-- Trace shape of the catch-all branch for an exception that is not a
RuntimeException instance: the recovery steps, then (when recovery
succeeded) the two debug logs and the wrap of the truncated message. -/
theorem exception_handler_catchall_wrap (m : Manager) (sql now : String)
    (e : PyExc) (hca : caughtByCatchAll e = true)
    (hre : isRuntimeExceptionInst e = false) :
    exception_handler m sql now e =
      (emit_failed m sql now).1 ++
      (match (emit_failed m sql now).2 with
       | .raised ex => [Step.raiseExc ex]
       | .ok =>
         [Step.logDebug ("Unhandled error while running:\n" ++ sql),
          Step.logDebug (strExc e),
          Step.raiseExc (.runtimeException (truncateMessage (strExc e)))]) := by
  cases e with
  | badRequest g => simp [caughtByCatchAll] at hca
  | forbidden g => simp [caughtByCatchAll] at hca
  | refreshError msg => simp [caughtByCatchAll] at hca
  | runtimeException msg => simp [isRuntimeExceptionInst] at hre
  | databaseException msg => simp [isRuntimeExceptionInst] at hre
  | attributeError msg =>
    rcases hef : emit_failed m sql now with ⟨steps, out⟩
    cases out <;> simp [exception_handler, hef, isRuntimeExceptionInst]
  | keyError k =>
    rcases hef : emit_failed m sql now with ⟨steps, out⟩
    cases out <;> simp [exception_handler, hef, isRuntimeExceptionInst]
  | other msg =>
    rcases hef : emit_failed m sql now with ⟨steps, out⟩
    cases out <;> simp [exception_handler, hef, isRuntimeExceptionInst]

/-- C6 counterexample: a RuntimeException whose message contains the
verbose delimiter is re-raised by the catch-all branch with its full
message — including the text after the delimiter — and the truncated
form is never raised, so the claim quantified over every exception
caught by the catch-all branch fails. -/
theorem truncation_skipped_for_runtimeException :
    Step.raiseExc (.runtimeException badMsgC6) ∈
      exception_handler mgr1 sqlGood "t1" (.runtimeException badMsgC6) ∧
    containsSubStr badMsgC6 BQ_QUERY_JOB_SPLIT = true ∧
    containsSubStr badMsgC6 "secret tail" = true ∧
    badMsgC6 ≠ stripStr (beforeFirstStr badMsgC6 BQ_QUERY_JOB_SPLIT) ∧
    (exception_handler mgr1 sqlGood "t1" (.runtimeException badMsgC6)).filter
      (fun st => st == Step.raiseExc (.runtimeException
        (stripStr (beforeFirstStr badMsgC6 BQ_QUERY_JOB_SPLIT)))) = [] := by
  decide

/-- C6 amended: for every non-RuntimeException exception caught by the
catch-all branch whose string message contains the verbose delimiter,
any RuntimeException the boundary delivers carries exactly the stripped
text preceding the first occurrence of the delimiter. -/
theorem exception_handler_truncates_catchall_message (m : Manager)
    (sql now : String) (e : PyExc) (s : String)
    (hca : caughtByCatchAll e = true)
    (hre : isRuntimeExceptionInst e = false)
    (hct : containsSubStr (strExc e) BQ_QUERY_JOB_SPLIT = true)
    (h : Step.raiseExc (.runtimeException s) ∈ exception_handler m sql now e) :
    s = stripStr (beforeFirstStr (strExc e) BQ_QUERY_JOB_SPLIT) := by
  rw [exception_handler_catchall_wrap m sql now e hca hre] at h
  rcases hef : emit_failed m sql now with ⟨steps, out⟩
  rw [hef] at h
  have hnr := emit_failed_no_raise_mem m sql now (PyExc.runtimeException s)
  rw [hef] at hnr
  cases out with
  | raised ex =>
    have hle := emit_failed_raised_lookupErr m sql now ex (by rw [hef])
    simp only [List.mem_append, List.mem_singleton] at h
    rcases h with hin | heq
    · exact absurd hin hnr
    · rw [Step.raiseExc.injEq] at heq
      rw [← heq] at hle
      simp [isLookupErr] at hle
  | ok =>
    simp at h
    rcases h with hin | heq
    · exact absurd hin hnr
    · rw [heq, truncateMessage, if_pos hct]

/-- Witness for the amended C6: a generic exception whose message holds
text on both sides of the delimiter gets the stripped prefix. -/
theorem exception_handler_truncates_catchall_message_witness :
    ("boom" : String) =
      stripStr (beforeFirstStr (strExc (.other badMsgC6)) BQ_QUERY_JOB_SPLIT) :=
  exception_handler_truncates_catchall_message mgr1 sqlGood "t1"
    (.other badMsgC6) "boom" (by decide) (by decide) (by decide) (by decide)

end OLDbt
